import Mathlib

/-!
Shallow embedding of the resilience core of `demo-k8s-app-resiliency`:
the health/readiness `Checker` (internal/health), the shutdown `Manager`
(internal/shutdown), the HTTP `Handler` feature flags (internal/handlers),
and the circuit breaker configured in internal/database.

Environments are modelled as total functions `String → String`, with the
empty string standing for an unset variable, matching Go's `os.Getenv`.
Time is modelled in abstract units (`Nat`).
-/

namespace Resilience

/-- Health status values, from `internal/health` (`StatusHealthy`,
`StatusUnhealthy`, `StatusDegraded`). -/
inductive Status where
  | healthy
  | unhealthy
  | degraded
deriving DecidableEq, Repr

/-- One health check result, from the `Check` struct of `internal/health`
(duration and timestamp omitted: they are wall-clock observability fields
that no decision path reads). -/
structure Check where
  name : String
  status : Status
  message : String
deriving DecidableEq, Repr

/-- Function `getEnvOrDefault` from `internal/health` and `internal/database`:
returns the environment value when non-empty, the default otherwise. -/
def getEnvOrDefault (env : String → String) (key defaultValue : String) : String :=
  if env key ≠ "" then env key else defaultValue

/-- Executable model of Go's `strings.Split(s, sep)` for a one-character
separator, on the character list: splitting the empty list yields one
empty field, and every separator occurrence starts a new field. -/
def splitCharList (sep : Char) : List Char → List (List Char)
  | [] => [[]]
  | c :: cs =>
    match splitCharList sep cs with
    | [] => if c = sep then [[], []] else [[c]]
    | r :: rs => if c = sep then [] :: r :: rs else (c :: r) :: rs

/-- Go's `strings.Split(s, ",")` on strings. -/
def splitComma (s : String) : List String :=
  (splitCharList ',' s.toList).map fun cs => String.mk cs

/-- Executable model of Go's `strings.TrimSpace`: drop whitespace from
both ends. -/
def trimSpace (s : String) : String :=
  String.mk (((s.toList.dropWhile Char.isWhitespace).reverse.dropWhile
    Char.isWhitespace).reverse)

namespace Checker

/-- Method `Checker.getEnabledFeatures`: parses the `FEATURE_FLAGS` environment
variable (default `"graceful_degradation,circuit_breaker"`), splitting on
commas and trimming whitespace. -/
def getEnabledFeatures (env : String → String) : List String :=
  let featureFlags := getEnvOrDefault env "FEATURE_FLAGS" "graceful_degradation,circuit_breaker"
  if featureFlags = "" then []
  else (splitComma featureFlags).map trimSpace

/-- Method `Checker.isGracefulDegradationEnabled`: true when the parsed feature
list contains `"graceful_degradation"`. -/
def isGracefulDegradationEnabled (env : String → String) : Bool :=
  (getEnabledFeatures env).contains "graceful_degradation"

/-- Method `Checker.checkDatabase`: the database check is Unhealthy exactly when
the (FailureGate-gated) ping returns an error, Healthy otherwise. The ping
outcome is passed in as `pingErr`. -/
def checkDatabase (pingErr : Option String) : Check :=
  match pingErr with
  | some e =>
    { name := "database", status := .unhealthy
      message := "Database connection failed: " ++ e }
  | none =>
    { name := "database", status := .healthy
      message := "Database connection successful" }

/-- Method `Checker.checkMemory`: always Healthy in this demo. -/
def checkMemory : Check :=
  { name := "memory", status := .healthy
    message := "Memory usage within normal limits" }

/-- Method `Checker.checkFeatures`: Degraded when no features are enabled,
Healthy otherwise. -/
def checkFeatures (env : String → String) : Check :=
  let features := getEnabledFeatures env
  if features.length = 0 then
    { name := "features", status := .degraded
      message := "No features enabled - running in minimal mode" }
  else
    { name := "features", status := .healthy
      message := "Features enabled: " ++ String.intercalate ", " features }

/-- Method `Checker.determineOverallStatus`: folds the per-check statuses into the
overall status. The Go code iterates over map values; the map is modelled
as the list of its values. -/
def determineOverallStatus (env : String → String) (checks : List Check) : Status :=
  let hasUnhealthy := checks.any fun check => check.status == .unhealthy
  let hasDegraded := checks.any fun check => check.status == .degraded
  if hasUnhealthy && !(isGracefulDegradationEnabled env) then .unhealthy
  else if hasUnhealthy || hasDegraded then .degraded
  else .healthy

/-- Mutable checker state: the `ready` and `startup` flags of the
`Checker` struct (`startTime`, logger and the db handle carry no decision
state of their own). -/
structure State where
  ready : Bool
  startup : Bool
deriving DecidableEq, Repr

/-- The state `NewChecker` constructs: both flags start false. -/
def initialState : State := { ready := false, startup := false }

/-- Method `Checker.ReadinessCheck` as a state transformer returning the updated
state and the boolean verdict. `pingErr` is the outcome the gated ping
would produce on this call. -/
def readinessCheck (s : State) (env : String → String) (pingErr : Option String) :
    State × Bool :=
  if !s.startup then (s, false)
  else
    let dbCheck := checkDatabase pingErr
    if dbCheck.status == .unhealthy then
      if isGracefulDegradationEnabled env then (s, true) else (s, false)
    else ({ s with ready := true }, true)

/-- Method `Checker.StartupCheck`: reads the startup flag. -/
def startupCheck (s : State) : Bool := s.startup

/-- Method `Checker.IsReady`: reads the ready flag. -/
def isReady (s : State) : Bool := s.ready

/-- Method `Checker.HealthCheck`, overall-status part: builds the database,
memory and features checks and aggregates them. -/
def healthCheck (env : String → String) (pingErr : Option String) : Status :=
  determineOverallStatus env [checkDatabase pingErr, checkMemory, checkFeatures env]

/-- The fixed post-construction startup delay (5 seconds in `NewChecker`),
in seconds. -/
def startupDelay : Nat := 5

/-- The operations that can touch the checker's mutable flags:
`markStartup` is the timer goroutine started by `NewChecker` setting the
startup flag; `readinessProbe` is a `ReadinessCheck` call with the
environment and ping outcome it observes. `HealthCheck`, `StartupCheck`
and `IsReady` only read the flags. -/
inductive Event where
  | markStartup
  | readinessProbe (env : String → String) (pingErr : Option String)

/-- Whether an event is the startup-timer firing. -/
def Event.isMarkStartup : Event → Bool
  | .markStartup => true
  | .readinessProbe _ _ => false

/-- One state transition of the checker. -/
def step (s : State) : Event → State
  | .markStartup => { s with startup := true }
  | .readinessProbe env pingErr => (readinessCheck s env pingErr).1

/-- The checker state after a sequence of operations. -/
def runTrace (s : State) (events : List Event) : State :=
  events.foldl step s

/-- A trace of timestamped events (time in seconds since construction). -/
def runTimed (s : State) (trace : List (Nat × Event)) : State :=
  runTrace s (trace.map Prod.snd)

/-- A timed trace is well-timed when the startup timer fires only once the
startup delay has elapsed, as `NewChecker`'s timer goroutine guarantees. -/
def WellTimed (delay : Nat) (trace : List (Nat × Event)) : Prop :=
  ∀ te ∈ trace, te.2.isMarkStartup = true → delay ≤ te.1

end Checker

namespace Handler

/-- Method `Handler.getEnabledFeatures` from `internal/handlers`: a hard-coded
list, independent of the environment. -/
def getEnabledFeatures : List String :=
  ["graceful_degradation", "circuit_breaker", "metrics"]

/-- Method `Handler.isGracefulDegradationEnabled`: membership test on the
hard-coded list. -/
def isGracefulDegradationEnabled : Bool :=
  getEnabledFeatures.contains "graceful_degradation"

end Handler

namespace Manager

/-!
Shutdown `Manager` from `internal/shutdown`. A registered hook is
represented by the outcome it produces when invoked (`none` = success,
`some msg` = the error it returns); the HTTP-server stop and the database
close are likewise represented by their outcomes, supplied as an
environment to `shutdown`. The mutex-guarded flag check is modelled by
linearizing calls; the context-deadline race in the enclosing `select` is
wall-clock behaviour outside the shallow embedding.
-/

/-- The outcome a teardown action produces when run: `none` on success. -/
abbrev Outcome := Option String

/-- Mutable manager state: the `isShutdown` flag and the registered hook
sequence (`shutdownFn`). -/
structure State where
  isShutdown : Bool
  hooks : List Outcome
deriving DecidableEq, Repr

/-- The state `NewManager` constructs. -/
def initialState : State := { isShutdown := false, hooks := [] }

/-- Method `Manager.AddShutdownHook`: appends unconditionally under the lock. -/
def addShutdownHook (m : State) (fn : Outcome) : State :=
  { m with hooks := m.hooks ++ [fn] }

/-- Method `Manager.IsShutdown`: reads the flag. -/
def isShutdownFlag (m : State) : Bool := m.isShutdown

/-- The teardown steps `Shutdown` can perform, in the order the code
performs them; `runHook i` is the hook registered at index `i`. -/
inductive Step where
  | stopServer
  | runHook (i : Nat)
  | closeDB
  | finalCleanup
deriving DecidableEq, Repr

/-- The errors `Shutdown` can return (deadline expiry aside). `hookFailed n`
carries the 1-based hook number the code puts in the error message. -/
inductive SdError where
  | serverFailed (msg : String)
  | hookFailed (n : Nat) (msg : String)
  | dbCloseFailed (msg : String)
deriving DecidableEq, Repr

/-- Outcomes of the steps outside the manager's own state: stopping the
HTTP server and closing the database handle. -/
structure Env where
  serverErr : Outcome
  dbCloseErr : Outcome

/-- Step 2 of `Shutdown`: run the hooks in order starting at index `i`,
stopping at the first error; returns the steps performed and the failing
index with its message, if any. -/
def runHooks : List Outcome → Nat → List Step × Option (Nat × String)
  | [], _ => ([], none)
  | none :: rest, i =>
    let r := runHooks rest (i + 1)
    (.runHook i :: r.1, r.2)
  | some e :: _, i => ([.runHook i], some (i, e))

/-- Method `Manager.Shutdown`: returns the updated state, the returned error, and
the teardown steps performed by this call. -/
def shutdown (m : State) (env : Env) : State × Option SdError × List Step :=
  if m.isShutdown then (m, none, [])
  else
    let m1 := { m with isShutdown := true }
    match env.serverErr with
    | some e => (m1, some (.serverFailed e), [.stopServer])
    | none =>
      let r := runHooks m.hooks 0
      match r.2 with
      | some ie => (m1, some (.hookFailed (ie.1 + 1) ie.2), .stopServer :: r.1)
      | none =>
        match env.dbCloseErr with
        | some e => (m1, some (.dbCloseFailed e), .stopServer :: r.1 ++ [.closeDB])
        | none => (m1, none, .stopServer :: r.1 ++ [.closeDB, .finalCleanup])

end Manager

namespace FailureGate

/-!
Modelled from the spec: the circuit-breaker (FailureGate) state machine.
The repository only configures the breaker (`cbSettings` in
`internal/database/connection.go`) and calls `Execute`; the breaker
implementation itself is the external `gobreaker` library, whose source is
not part of this repository, so the state machine is taken from the spec's
§4.1 contract. The trip predicate and the settings values are translated
from `cbSettings` in the source. Time is in seconds; the would-be outcome
of the wrapped operation is passed in as `opFailed`, and the result
records whether the operation was actually invoked.
-/

/-- Rolling success/failure counters, as in `gobreaker.Counts`. -/
structure Counts where
  requests : Nat
  totalSuccesses : Nat
  totalFailures : Nat
  consecutiveSuccesses : Nat
  consecutiveFailures : Nat
deriving DecidableEq, Repr

/-- Counts after a reset. -/
def Counts.zero : Counts := ⟨0, 0, 0, 0, 0⟩

/-- Modelled from the spec: a new request is counted. -/
def Counts.onRequest (c : Counts) : Counts :=
  { c with requests := c.requests + 1 }

/-- Modelled from the spec: a success resets consecutive failures. -/
def Counts.onSuccess (c : Counts) : Counts :=
  { c with totalSuccesses := c.totalSuccesses + 1
           consecutiveSuccesses := c.consecutiveSuccesses + 1
           consecutiveFailures := 0 }

/-- Modelled from the spec: a failure resets consecutive successes. -/
def Counts.onFailure (c : Counts) : Counts :=
  { c with totalFailures := c.totalFailures + 1
           consecutiveFailures := c.consecutiveFailures + 1
           consecutiveSuccesses := 0 }

/-- The three breaker states. -/
inductive CBState where
  | closed
  | opened
  | halfOpen
deriving DecidableEq, Repr

/-- Breaker configuration: `maxRequests` is the half-open probe budget,
`interval` the Closed-state rolling reset interval, `timeout` the
open-timeout, `readyToTrip` the trip predicate on the counts. -/
structure Config where
  maxRequests : Nat
  interval : Nat
  timeout : Nat
  readyToTrip : Counts → Bool

/-- Breaker state: current state, counts, when it last opened, and when
the current Closed-state rolling interval started. -/
structure Gate where
  state : CBState
  counts : Counts
  openedAt : Nat
  intervalStart : Nat
deriving Repr

/-- A freshly constructed breaker: Closed with zero counts. -/
def newGate (now : Nat) : Gate :=
  { state := .closed, counts := Counts.zero, openedAt := 0, intervalStart := now }

/-- The errors `Execute` can surface: the two fail-fast errors
(`ErrOpenState`/`ErrTooManyRequests` in gobreaker) and the wrapped
operation's own failure. -/
inductive GateError where
  | circuitOpen
  | tooManyRequests
  | operationFailed
deriving DecidableEq, Repr

/-- The outcome of one `Execute` call: whether the wrapped operation was
actually invoked, and the error returned, if any. -/
structure ExecResult where
  invoked : Bool
  err : Option GateError
deriving DecidableEq, Repr

/-- Modelled from the spec: `Execute` behaviour in HalfOpen — at most
`maxRequests` probes pass through; a failing probe reopens the breaker; a
run of `maxRequests` consecutive successes closes it. -/
def halfOpenExec (cfg : Config) (g : Gate) (now : Nat) (opFailed : Bool) :
    Gate × ExecResult :=
  if cfg.maxRequests ≤ g.counts.requests then
    (g, { invoked := false, err := some .tooManyRequests })
  else
    let c := g.counts.onRequest
    if opFailed then
      ({ state := .opened, counts := Counts.zero, openedAt := now, intervalStart := now },
        { invoked := true, err := some .operationFailed })
    else
      let c2 := c.onSuccess
      if cfg.maxRequests ≤ c2.consecutiveSuccesses then
        ({ state := .closed, counts := Counts.zero, openedAt := g.openedAt
           intervalStart := now },
          { invoked := true, err := none })
      else
        ({ g with counts := c2 }, { invoked := true, err := none })

/-- Modelled from the spec: `Execute` behaviour in Closed — the operation
is always invoked; counts reset when the rolling interval expires; a
failure that satisfies the trip predicate opens the breaker, recording
`openedAt = now`. -/
def closedExec (cfg : Config) (g : Gate) (now : Nat) (opFailed : Bool) :
    Gate × ExecResult :=
  let g0 := if 0 < cfg.interval ∧ g.intervalStart + cfg.interval ≤ now then
      { g with counts := Counts.zero, intervalStart := now }
    else g
  let c := g0.counts.onRequest
  if opFailed then
    let c2 := c.onFailure
    if cfg.readyToTrip c2 then
      ({ state := .opened, counts := Counts.zero, openedAt := now, intervalStart := now },
        { invoked := true, err := some .operationFailed })
    else
      ({ g0 with counts := c2 }, { invoked := true, err := some .operationFailed })
  else
    ({ g0 with counts := c.onSuccess }, { invoked := true, err := none })

/-- Modelled from the spec: one `Execute` call. In Open before the
open-timeout has elapsed the call fails fast with `circuitOpen` and the
operation is not invoked; once the timeout has elapsed the breaker moves
to HalfOpen (resetting counts) and this call falls through to the
half-open path. -/
def execute (cfg : Config) (g : Gate) (now : Nat) (opFailed : Bool) :
    Gate × ExecResult :=
  match g.state with
  | .closed => closedExec cfg g now opFailed
  | .opened =>
    if now < g.openedAt + cfg.timeout then
      (g, { invoked := false, err := some .circuitOpen })
    else
      halfOpenExec cfg { g with state := .halfOpen, counts := Counts.zero } now opFailed
  | .halfOpen => halfOpenExec cfg g now opFailed

/-- The trip predicate from `cbSettings.ReadyToTrip` in
`internal/database/connection.go`: `requests >= 2` and
`failureRatio >= 0.5`. The Go code computes
`float64(TotalFailures)/float64(Requests) >= 0.5`; for counter magnitudes
(well below 2^32) the float64 comparison is exact and equivalent to
`Requests <= 2*TotalFailures`. -/
def dbReadyToTrip (c : Counts) : Bool :=
  2 ≤ c.requests && c.requests ≤ 2 * c.totalFailures

/-- The breaker settings from `cbSettings`: `MaxRequests: 3`,
`Interval: 30s`, `Timeout: 10s`, and the trip predicate above. -/
def dbSettings : Config :=
  { maxRequests := 3, interval := 30, timeout := 10, readyToTrip := dbReadyToTrip }

end FailureGate

end Resilience

namespace Resilience

/-- Claim C1: `ReadinessCheck` returns false whenever startup is
incomplete; otherwise it runs the database check, and if that check is
Unhealthy it returns the degradation flag; if the database check is not
Unhealthy it returns true. -/
theorem readinessCheck_verdict (s : Checker.State) (env : String → String)
    (pingErr : Option String) :
    (s.startup = false → (Checker.readinessCheck s env pingErr).2 = false)
    ∧ (s.startup = true → (Checker.checkDatabase pingErr).status = .unhealthy →
        (Checker.readinessCheck s env pingErr).2 = Checker.isGracefulDegradationEnabled env)
    ∧ (s.startup = true → (Checker.checkDatabase pingErr).status ≠ .unhealthy →
        (Checker.readinessCheck s env pingErr).2 = true) := by
  refine ⟨fun hs => ?_, fun hs hdb => ?_, fun hs hdb => ?_⟩
  · simp [Checker.readinessCheck, hs]
  · by_cases hdeg : Checker.isGracefulDegradationEnabled env = true
    · simp [Checker.readinessCheck, hs, hdb, hdeg]
    · simp [Checker.readinessCheck, hs, hdb,
        Bool.not_eq_true _ ▸ hdeg]
  · have : ((Checker.checkDatabase pingErr).status == Status.unhealthy) = false := by
      simpa [beq_iff_eq] using hdb
    simp [Checker.readinessCheck, hs, this]

/-- A list `any` over unhealthy statuses, in propositional form. -/
theorem any_unhealthy_iff (checks : List Check) :
    (checks.any fun check => check.status == Status.unhealthy) = true ↔
      ∃ c ∈ checks, c.status = Status.unhealthy := by
  simp [List.any_eq_true]

/-- A list `any` over degraded statuses, in propositional form. -/
theorem any_degraded_iff (checks : List Check) :
    (checks.any fun check => check.status == Status.degraded) = true ↔
      ∃ c ∈ checks, c.status = Status.degraded := by
  simp [List.any_eq_true]

/-- Claim C2: the overall status computed by `HealthCheck` is Unhealthy
iff some check is Unhealthy and degradation is disabled; otherwise it is
Degraded iff some check is Unhealthy or Degraded; otherwise Healthy. -/
theorem determineOverallStatus_spec (env : String → String) (checks : List Check) :
    (Checker.determineOverallStatus env checks = .unhealthy ↔
      (∃ c ∈ checks, c.status = .unhealthy)
        ∧ Checker.isGracefulDegradationEnabled env = false)
    ∧ (Checker.determineOverallStatus env checks = .degraded ↔
      (∃ c ∈ checks, c.status = .unhealthy ∨ c.status = .degraded)
        ∧ ¬((∃ c ∈ checks, c.status = .unhealthy)
              ∧ Checker.isGracefulDegradationEnabled env = false))
    ∧ (Checker.determineOverallStatus env checks = .healthy ↔
      ∀ c ∈ checks, c.status ≠ .unhealthy ∧ c.status ≠ .degraded) := by
  have hU := any_unhealthy_iff checks
  have hD := any_degraded_iff checks
  cases hu : (checks.any fun check => check.status == Status.unhealthy) <;>
    cases hd : (checks.any fun check => check.status == Status.degraded) <;>
      cases hg : Checker.isGracefulDegradationEnabled env <;>
        rw [hu] at hU <;> rw [hd] at hD <;>
          simp only [Checker.determineOverallStatus, hu, hd, hg, Bool.false_and,
            Bool.true_and, Bool.not_false, Bool.not_true, Bool.and_false, Bool.and_true,
            Bool.false_or, Bool.true_or, Bool.or_false, Bool.or_true, if_true, if_false,
            Bool.false_eq_true, Bool.true_eq_false] <;>
          simp_all <;> aesop

/-- Claim C9: the HTTP handlers' degradation flag is hard-coded true,
while the health checker's is computed from `FEATURE_FLAGS`: there is an
environment on which the checker reports degradation disabled (so the two
components disagree), although on the default environment both agree. -/
theorem handler_degradation_constant_true_checker_env_dependent :
    Handler.isGracefulDegradationEnabled = true
    ∧ (∃ env : String → String,
        Checker.isGracefulDegradationEnabled env = false
          ∧ Handler.isGracefulDegradationEnabled = true)
    ∧ Checker.isGracefulDegradationEnabled (fun _ => "") = true := by
  refine ⟨by decide,
    ⟨fun k => if k = "FEATURE_FLAGS" then "circuit_breaker" else "", ?_, by decide⟩, ?_⟩
  · decide
  · decide

/-- Claim C5: `Shutdown` is idempotent: when shutdown has already been
initiated the call returns immediately with a nil error and performs no
steps, and any second call after any first call likewise performs no steps
and returns nil, so the teardown steps run at most once across calls. -/
theorem shutdown_idempotent (m : Manager.State) (env env2 : Manager.Env) :
    (m.isShutdown = true → Manager.shutdown m env = (m, none, []))
    ∧ Manager.shutdown (Manager.shutdown m env).1 env2
        = ((Manager.shutdown m env).1, none, []) := by
  have hflag : (Manager.shutdown m env).1.isShutdown = true := by
    unfold Manager.shutdown
    by_cases h : m.isShutdown
    · simp [h]
    · cases hs : env.serverErr <;>
        cases hr : (Manager.runHooks m.hooks 0).2 <;>
          cases hd : env.dbCloseErr <;> simp [h, hs, hr, hd]
  refine ⟨fun h => ?_, ?_⟩
  · simp [Manager.shutdown, h]
  · have h2 : ∀ m2 : Manager.State, m2.isShutdown = true →
        Manager.shutdown m2 env2 = (m2, none, []) := by
      intro m2 h
      simp [Manager.shutdown, h]
    exact h2 _ hflag

/-- Witness for C5: a manager already shut down, and a repeated call. -/
theorem shutdown_idempotent_witness :
    Manager.shutdown { isShutdown := true, hooks := [] } ⟨none, none⟩
        = ({ isShutdown := true, hooks := [] }, none, [])
    ∧ Manager.shutdown
        (Manager.shutdown Manager.initialState ⟨none, none⟩).1 ⟨none, none⟩
        = ((Manager.shutdown Manager.initialState ⟨none, none⟩).1, none, []) :=
  ⟨(shutdown_idempotent { isShutdown := true, hooks := [] } ⟨none, none⟩ ⟨none, none⟩).1 rfl,
   (shutdown_idempotent Manager.initialState ⟨none, none⟩ ⟨none, none⟩).2⟩

/-- Running `runHooks` on an all-successful list runs every hook in index order. -/
theorem runHooks_all_none (l : List Manager.Outcome) (h : ∀ x ∈ l, x = none) (i : Nat) :
    Manager.runHooks l i = ((List.range' i l.length).map Manager.Step.runHook, none) := by
  induction l generalizing i with
  | nil => simp [Manager.runHooks, List.range']
  | cons x xs ih =>
    have hx : x = none := h x (by simp)
    subst hx
    have hxs : ∀ y ∈ xs, y = none := fun y hy => h y (by simp [hy])
    simp [Manager.runHooks, ih hxs (i + 1), List.range']

/-- Function `runHooks` stops at the first failing hook: it runs exactly the hooks
up to and including the failing one and reports its index and message. -/
theorem runHooks_first_error (pre : List Manager.Outcome) (e : String)
    (post : List Manager.Outcome) (h : ∀ x ∈ pre, x = none) (i : Nat) :
    Manager.runHooks (pre ++ some e :: post) i
      = ((List.range' i (pre.length + 1)).map Manager.Step.runHook,
          some (i + pre.length, e)) := by
  induction pre generalizing i with
  | nil => simp [Manager.runHooks, List.range']
  | cons x xs ih =>
    have hx : x = none := h x (by simp)
    subst hx
    have hxs : ∀ y ∈ xs, y = none := fun y hy => h y (by simp [hy])
    have hstep := ih hxs (i + 1)
    have harith : i + 1 + xs.length = i + (xs.length + 1) := by omega
    simp [Manager.runHooks, hstep, List.range', harith]

/-- Claim C6: when a hook fails, `Shutdown` performs exactly the
server-stop step followed by the hooks up to and including the failing
one, in registration order, closes nothing afterwards, and returns an
error naming the failing hook (1-based). -/
theorem shutdown_hook_error_aborts (m : Manager.State) (env : Manager.Env)
    (pre post : List Manager.Outcome) (e : String)
    (hflag : m.isShutdown = false) (hserver : env.serverErr = none)
    (hhooks : m.hooks = pre ++ some e :: post)
    (hpre : ∀ x ∈ pre, x = none) :
    Manager.shutdown m env
      = ({ m with isShutdown := true },
          some (.hookFailed (pre.length + 1) e),
          .stopServer :: (List.range (pre.length + 1)).map Manager.Step.runHook)
    ∧ Manager.Step.closeDB ∉ (Manager.shutdown m env).2.2
    ∧ ∀ j, pre.length < j → Manager.Step.runHook j ∉ (Manager.shutdown m env).2.2 := by
  have hrun := runHooks_first_error pre e post hpre 0
  have heq : Manager.shutdown m env
      = ({ m with isShutdown := true },
          some (.hookFailed (pre.length + 1) e),
          .stopServer :: (List.range (pre.length + 1)).map Manager.Step.runHook) := by
    simp [Manager.shutdown, hflag, hserver, hhooks, hrun, List.range_eq_range']
  refine ⟨heq, ?_, ?_⟩
  · rw [heq]
    simp
  · intro j hj
    rw [heq]
    simp only [List.mem_cons, List.mem_map, List.mem_range]
    rintro (h | ⟨a, ha, haj⟩)
    · exact Manager.Step.noConfusion h
    · cases haj
      omega

/-- Witness for C6: one successful hook, then a failing one, then one that
must never run. -/
theorem shutdown_hook_error_aborts_witness :
    Manager.shutdown { isShutdown := false, hooks := [none, some "boom", none] }
        ⟨none, none⟩
      = ({ isShutdown := true, hooks := [none, some "boom", none] },
          some (.hookFailed 2 "boom"),
          [.stopServer, .runHook 0, .runHook 1]) :=
  (shutdown_hook_error_aborts
      { isShutdown := false, hooks := [none, some "boom", none] } ⟨none, none⟩
      [none] [none] "boom" rfl rfl rfl (by decide)).1

/-- Counterexample to claim C7: `AddShutdownHook` called after shutdown
has begun is not a no-op (the hook list grows) and signals no error. -/
theorem addShutdownHook_after_shutdown_not_noop :
    ({ isShutdown := true, hooks := [] } : Manager.State).isShutdown = true
    ∧ Manager.addShutdownHook { isShutdown := true, hooks := [] } none
        ≠ ({ isShutdown := true, hooks := [] } : Manager.State)
    ∧ (Manager.addShutdownHook { isShutdown := true, hooks := [] } none).hooks
        = [none] := by
  refine ⟨rfl, ?_, rfl⟩
  decide

/-- Claim C7 as amended: `AddShutdownHook` appends unconditionally even
after shutdown has begun, but a hook registered then is never executed:
every later `Shutdown` call performs no steps at all, so the hook sequence
that `Shutdown` executes is fixed once shutdown starts. -/
theorem addShutdownHook_after_shutdown_never_runs (m : Manager.State)
    (fn : Manager.Outcome) (env : Manager.Env) (h : m.isShutdown = true) :
    Manager.addShutdownHook m fn
        = { m with hooks := m.hooks ++ [fn] }
    ∧ Manager.shutdown (Manager.addShutdownHook m fn) env
        = (Manager.addShutdownHook m fn, none, []) := by
  refine ⟨rfl, ?_⟩
  simp [Manager.shutdown, Manager.addShutdownHook, h]

/-- Witness for C7's amended claim: registering after shutdown began. -/
theorem addShutdownHook_after_shutdown_never_runs_witness :
    Manager.addShutdownHook { isShutdown := true, hooks := [] } (some "late")
        = { isShutdown := true, hooks := [some "late"] }
    ∧ Manager.shutdown
        (Manager.addShutdownHook { isShutdown := true, hooks := [] } (some "late"))
        ⟨none, none⟩
      = (Manager.addShutdownHook { isShutdown := true, hooks := [] } (some "late"),
          none, []) :=
  addShutdownHook_after_shutdown_never_runs
    { isShutdown := true, hooks := [] } (some "late") ⟨none, none⟩ rfl

/-- Claim C3: in the Open state, before the open-timeout has elapsed,
`Execute` fails immediately with the circuit-open error and the wrapped
operation is never invoked — for every breaker configuration and state,
hence along every sequence of calls. -/
theorem execute_open_fail_fast (cfg : FailureGate.Config) (g : FailureGate.Gate)
    (now : Nat) (opFailed : Bool) (hstate : g.state = .opened)
    (htime : now < g.openedAt + cfg.timeout) :
    FailureGate.execute cfg g now opFailed
      = (g, { invoked := false, err := some .circuitOpen }) := by
  obtain ⟨st, c, oa, is⟩ := g
  cases hstate
  simp only [FailureGate.execute] at *
  simp [htime]

/-- Witness for C3: a breaker that opened at time 0, probed at time 9
(inside the 10-second open-timeout of the configured settings). -/
theorem execute_open_fail_fast_witness :
    FailureGate.execute FailureGate.dbSettings
        { state := .opened, counts := FailureGate.Counts.zero
          openedAt := 0, intervalStart := 0 } 9 true
      = ({ state := .opened, counts := FailureGate.Counts.zero
           openedAt := 0, intervalStart := 0 },
          { invoked := false, err := some .circuitOpen }) :=
  execute_open_fail_fast FailureGate.dbSettings
    { state := .opened, counts := FailureGate.Counts.zero
      openedAt := 0, intervalStart := 0 } 9 true rfl (by decide)

/-- Claim C4: with the configured settings (trip when `requests >= 2` and
failure ratio `>= 0.5`), a fresh Closed breaker receiving two failing
calls stays Closed after the first and transitions to Open on the second,
which still invokes (and reports) the failing operation. -/
theorem two_failures_trip :
    (FailureGate.execute FailureGate.dbSettings (FailureGate.newGate 0) 0 true).1.state
        = .closed
    ∧ (FailureGate.execute FailureGate.dbSettings
        (FailureGate.execute FailureGate.dbSettings (FailureGate.newGate 0) 0 true).1
        1 true).1.state = .opened
    ∧ (FailureGate.execute FailureGate.dbSettings
        (FailureGate.execute FailureGate.dbSettings (FailureGate.newGate 0) 0 true).1
        1 true).2
      = { invoked := true, err := some .operationFailed } := by
  refine ⟨rfl, rfl, rfl⟩

/-- A `ReadinessCheck` call leaves the state unchanged or merely sets the
ready flag. -/
theorem readinessCheck_state_cases (s : Checker.State) (env : String → String)
    (pingErr : Option String) :
    (Checker.readinessCheck s env pingErr).1 = s
      ∨ (Checker.readinessCheck s env pingErr).1 = { s with ready := true } := by
  unfold Checker.readinessCheck
  by_cases hs : s.startup
  · by_cases hdb : ((Checker.checkDatabase pingErr).status == Status.unhealthy) = true
    · by_cases hdeg : Checker.isGracefulDegradationEnabled env = true <;>
        simp [hs, hdb, hdeg]
    · simp [hs, Bool.not_eq_true _ ▸ hdb]
  · simp [hs]

/-- A step never clears the startup flag. -/
theorem step_startup_true (s : Checker.State) (e : Checker.Event)
    (h : s.startup = true) : (Checker.step s e).startup = true := by
  cases e with
  | markStartup => rfl
  | readinessProbe env pingErr =>
    rcases readinessCheck_state_cases s env pingErr with h1 | h1 <;>
      simp [Checker.step, h1, h]

/-- A step other than the startup timer never sets the startup flag. -/
theorem step_startup_of_not_mark (s : Checker.State) (e : Checker.Event)
    (h : e.isMarkStartup = false) : (Checker.step s e).startup = s.startup := by
  cases e with
  | markStartup => simp [Checker.Event.isMarkStartup] at h
  | readinessProbe env pingErr =>
    rcases readinessCheck_state_cases s env pingErr with h1 | h1 <;>
      simp [Checker.step, h1]

/-- The startup flag is preserved by whole traces. -/
theorem runTrace_startup_true (l : List Checker.Event) (s : Checker.State)
    (h : s.startup = true) : (Checker.runTrace s l).startup = true := by
  induction l generalizing s with
  | nil => exact h
  | cons e es ih => exact ih _ (step_startup_true s e h)

/-- Without a startup-timer event, the startup flag stays down. -/
theorem runTrace_startup_false (l : List Checker.Event) (s : Checker.State)
    (hl : ∀ e ∈ l, Checker.Event.isMarkStartup e = false) (h : s.startup = false) :
    (Checker.runTrace s l).startup = false := by
  induction l generalizing s with
  | nil => exact h
  | cons e es ih =>
    have he : (Checker.step s e).startup = false :=
      (step_startup_of_not_mark s e (hl e (by simp))).trans h
    exact ih (Checker.step s e) (fun x hx => hl x (by simp [hx])) he

/-- Once a startup-timer event occurs in a trace, the flag is up at the
end. -/
theorem runTrace_startup_of_mark (l : List Checker.Event) (s : Checker.State)
    (h : ∃ e ∈ l, Checker.Event.isMarkStartup e = true) :
    (Checker.runTrace s l).startup = true := by
  induction l generalizing s with
  | nil => simp at h
  | cons e es ih =>
    rcases h with ⟨x, hx, hmark⟩
    rcases List.mem_cons.mp hx with rfl | hmem
    · cases x with
      | markStartup =>
        exact runTrace_startup_true es _ rfl
      | readinessProbe env pingErr =>
        simp [Checker.Event.isMarkStartup] at hmark
    · exact ih _ ⟨x, hmem, hmark⟩

/-- Claim C8: `StartupCheck` is false for every call made before the fixed
startup delay (in a well-timed trace whose events all precede the delay),
true once the startup timer has fired, and monotone: once it reads true it
never reads false again, whatever further events occur. -/
theorem startupCheck_monotone_flip (l m : List (Nat × Checker.Event)) :
    ((∀ te ∈ l, te.1 < Checker.startupDelay) →
        Checker.WellTimed Checker.startupDelay l →
        Checker.startupCheck (Checker.runTimed Checker.initialState l) = false)
    ∧ ((∃ te ∈ l, (te.2).isMarkStartup = true) →
        Checker.startupCheck (Checker.runTimed Checker.initialState l) = true)
    ∧ (Checker.startupCheck (Checker.runTimed Checker.initialState l) = true →
        Checker.startupCheck (Checker.runTimed Checker.initialState (l ++ m)) = true) := by
  refine ⟨fun hbefore hwt => ?_, fun hmark => ?_, fun htrue => ?_⟩
  · apply runTrace_startup_false
    · intro e he
      rcases List.mem_map.mp he with ⟨te, hte, rfl⟩
      cases hval : te.2.isMarkStartup
      · rfl
      · have h1 := hwt te hte hval
        have h2 := hbefore te hte
        omega
    · rfl
  · apply runTrace_startup_of_mark
    rcases hmark with ⟨te, hte, hm⟩
    exact ⟨te.2, List.mem_map.mpr ⟨te, hte, rfl⟩, hm⟩
  · unfold Checker.runTimed Checker.runTrace at *
    rw [List.map_append, List.foldl_append]
    exact runTrace_startup_true _ _ htrue

/-- Witness for C8: a probe before the delay leaves startup false; the
timer firing at 5 seconds flips it; it stays true afterwards. -/
theorem startupCheck_monotone_flip_witness :
    Checker.startupCheck (Checker.runTimed Checker.initialState
        [(0, .readinessProbe (fun _ => "") none)]) = false
    ∧ Checker.startupCheck (Checker.runTimed Checker.initialState
        [(5, .markStartup)]) = true
    ∧ Checker.startupCheck (Checker.runTimed Checker.initialState
        ([(5, .markStartup)] ++ [(6, .readinessProbe (fun _ => "") (some "down"))]))
        = true := by
  refine ⟨(startupCheck_monotone_flip [(0, .readinessProbe (fun _ => "") none)] []).1
      ?_ ?_,
    (startupCheck_monotone_flip [(5, .markStartup)] []).2.1 ?_,
    (startupCheck_monotone_flip [(5, .markStartup)]
        [(6, .readinessProbe (fun _ => "") (some "down"))]).2.2 ?_⟩
  · intro te hte
    simp only [List.mem_singleton] at hte
    subst hte
    decide
  · intro te hte hm
    simp only [List.mem_singleton] at hte
    subst hte
    simp [Checker.Event.isMarkStartup] at hm
  · exact ⟨(5, .markStartup), by simp, rfl⟩
  · exact (startupCheck_monotone_flip [(5, .markStartup)] []).2.1
      ⟨(5, .markStartup), by simp, rfl⟩

/-- Claim C10: the ready flag starts false, is set to true only by a
`ReadinessCheck` that passes through the database-not-Unhealthy path, is
left untouched on the degradation path, and is never cleared: after it is
set, `IsReady` returns true for every later state, whatever events (in
particular an Unhealthy database with degradation disabled) occur. -/
theorem ready_flag_one_sided (s : Checker.State) (env : String → String)
    (pingErr : Option String) (l : List (Nat × Checker.Event)) :
    Checker.isReady Checker.initialState = false
    ∧ (s.startup = true → (Checker.checkDatabase pingErr).status ≠ .unhealthy →
        Checker.readinessCheck s env pingErr = ({ s with ready := true }, true))
    ∧ ((Checker.checkDatabase pingErr).status = .unhealthy →
        Checker.isReady (Checker.readinessCheck s env pingErr).1 = Checker.isReady s)
    ∧ (s.startup = false →
        Checker.isReady (Checker.readinessCheck s env pingErr).1 = Checker.isReady s)
    ∧ (Checker.isReady s = true →
        Checker.isReady (Checker.runTimed s l) = true) := by
  refine ⟨rfl, fun hs hdb => ?_, fun hdb => ?_, fun hs => ?_, fun hready => ?_⟩
  · have hne : ((Checker.checkDatabase pingErr).status == Status.unhealthy) = false := by
      simpa [beq_iff_eq] using hdb
    simp [Checker.readinessCheck, hs, hne]
  · by_cases hs : s.startup
    · by_cases hdeg : Checker.isGracefulDegradationEnabled env = true <;>
        simp [Checker.readinessCheck, hs, hdb, hdeg]
    · simp [Checker.readinessCheck, hs]
  · simp [Checker.readinessCheck, hs]
  · unfold Checker.runTimed
    generalize l.map Prod.snd = events
    induction events generalizing s with
    | nil => exact hready
    | cons e es ih =>
      have hstep : Checker.isReady (Checker.step s e) = true := by
        cases e with
        | markStartup => simpa [Checker.step, Checker.isReady] using hready
        | readinessProbe env2 p2 =>
          rcases readinessCheck_state_cases s env2 p2 with h1 | h1
          · simpa [Checker.step, Checker.isReady, h1] using hready
          · simp [Checker.step, Checker.isReady, h1]
      exact ih _ hstep

/-- Witness for C10: a successful readiness check sets the flag; an
Unhealthy database with degradation disabled afterwards leaves it set. -/
theorem ready_flag_one_sided_witness :
    Checker.readinessCheck { ready := false, startup := true } (fun _ => "") none
        = ({ ready := true, startup := true }, true)
    ∧ Checker.isReady (Checker.readinessCheck { ready := true, startup := true }
        (fun _ => "FEATURE_FLAGS=") (some "down")).1
      = Checker.isReady { ready := true, startup := true }
    ∧ Checker.isReady (Checker.runTimed { ready := true, startup := true }
        [(7, .readinessProbe (fun k => if k = "FEATURE_FLAGS" then "none" else "")
            (some "down"))]) = true :=
  ⟨(ready_flag_one_sided { ready := false, startup := true } (fun _ => "") none []).2.1
      rfl (by decide),
   (ready_flag_one_sided { ready := true, startup := true } (fun _ => "FEATURE_FLAGS=")
      (some "down") []).2.2.1 rfl,
   (ready_flag_one_sided { ready := true, startup := true } (fun _ => "") none
      [(7, .readinessProbe (fun k => if k = "FEATURE_FLAGS" then "none" else "")
          (some "down"))]).2.2.2.2 rfl⟩

/-- Witness for C1: concrete runs through all three branches. -/
theorem readinessCheck_verdict_witness :
    (Checker.readinessCheck Checker.initialState (fun _ => "") none).2 = false
    ∧ (Checker.readinessCheck { ready := false, startup := true } (fun _ => "")
        (some "down")).2 = Checker.isGracefulDegradationEnabled (fun _ => "")
    ∧ (Checker.readinessCheck { ready := false, startup := true } (fun _ => "") none).2
        = true :=
  ⟨(readinessCheck_verdict Checker.initialState (fun _ => "") none).1 rfl,
   (readinessCheck_verdict { ready := false, startup := true } (fun _ => "")
      (some "down")).2.1 rfl rfl,
   (readinessCheck_verdict { ready := false, startup := true } (fun _ => "") none).2.2
      rfl (by decide)⟩

end Resilience
